import Mathlib

/-
  Verification of the diagnosis-refinement core of the Caducée backend
  (src/main_api.py, version 5.0).

  The embedding models, faithfully to the Python source:
  - the JSON values produced by json.loads, via a strict fueled
    recursive-descent parser (json_loads below);
  - the oracle-reply cleaning done inline by both handlers
    (text.strip, then removal of code-fence markers, then json.loads);
  - the Pydantic response models AnalysisResponse and RefineResponse
    (required / optional / defaulted string fields, extra keys ignored);
  - the two handlers analyze_symptoms (start) and refine_analysis
    (advance), with the oracle call and the persistence commit passed in
    as explicit outcomes and all externally visible side effects
    recorded in an event trace.
-/

set_option maxRecDepth 8192

namespace Caducee

/-! ### JSON values

A parsed JSON document, as built by json.loads.  Numbers are kept as
their source lexeme: the code never does arithmetic on them, only
truthiness tests, so the lexeme is a faithful representation. -/

inductive JsonValue where
  | null
  | bool (b : Bool)
  | num (lexeme : String)
  | str (s : String)
  | arr (elems : List JsonValue)
  | obj (members : List (String × JsonValue))

/-! ### Lexing helpers (all total and structural) -/

/-- JSON insignificant whitespace, as accepted between tokens by json.loads. -/
def isJsonWs (c : Char) : Bool := c = ' ' || c = '\t' || c = '\n' || c = '\r'

/-- Drop insignificant whitespace before the next token. -/
def skipWs (l : List Char) : List Char := l.dropWhile isJsonWs

/-- Value of one hexadecimal digit. -/
def hexVal (c : Char) : Option Nat :=
  if '0' ≤ c && c ≤ '9' then some (c.toNat - 48)
  else if 'a' ≤ c && c ≤ 'f' then some (c.toNat - 87)
  else if 'A' ≤ c && c ≤ 'F' then some (c.toNat - 55)
  else none

/-- Single-character string escapes accepted by JSON. -/
def escChar (c : Char) : Option Char :=
  if c = '\x22' then some '\x22'
  else if c = '\\' then some '\\'
  else if c = '/' then some '/'
  else if c = 'b' then some '\x08'
  else if c = 'f' then some '\x0c'
  else if c = 'n' then some '\n'
  else if c = 'r' then some '\r'
  else if c = 't' then some '\t'
  else none

/-- Parse the body of a JSON string after the opening quote, returning the
decoded characters and the input following the closing quote.  Raw control
characters are rejected, as by json.loads in its default strict mode.
(Surrogate-pair recombination is not modelled; no input in this
development uses escapes above the BMP.) -/
def parseJStringAux : List Char → Except String (List Char × List Char)
  | [] => .error "Unterminated string"
  | '\x22' :: rest => .ok ([], rest)
  | '\\' :: 'u' :: h1 :: h2 :: h3 :: h4 :: rest =>
    match hexVal h1, hexVal h2, hexVal h3, hexVal h4 with
    | some a, some b, some c, some d =>
      match parseJStringAux rest with
      | .ok (cs, r) => .ok (Char.ofNat (((a * 16 + b) * 16 + c) * 16 + d) :: cs, r)
      | .error e => .error e
    | _, _, _, _ => .error "Invalid unicode escape"
  | '\\' :: e :: rest =>
    match escChar e with
    | some c =>
      match parseJStringAux rest with
      | .ok (cs, r) => .ok (c :: cs, r)
      | .error err => .error err
    | none => .error "Invalid escape"
  | c :: rest =>
    if c.toNat < 32 then .error "Invalid control character"
    else
      match parseJStringAux rest with
      | .ok (cs, r) => .ok (c :: cs, r)
      | .error err => .error err

/-- Longest digit run at the head of the input, and the rest. -/
def spanDigits (l : List Char) : List Char × List Char :=
  (l.takeWhile Char.isDigit, l.dropWhile Char.isDigit)

/-- Integer part of a JSON number: a single `0`, or a nonzero digit followed
by digits (leading zeros are rejected, as by json.loads). -/
def parseIntPart : List Char → Except String (List Char × List Char)
  | '0' :: rest => .ok (['0'], rest)
  | c :: rest =>
    if c.isDigit then
      let s := spanDigits rest
      .ok (c :: s.1, s.2)
    else .error "Expecting value"
  | [] => .error "Expecting value"

/-- Optional fractional part of a JSON number. -/
def parseFracPart : List Char → Except String (List Char × List Char)
  | '.' :: rest =>
    let s := spanDigits rest
    if s.1.isEmpty then .error "Invalid number" else .ok ('.' :: s.1, s.2)
  | l => .ok ([], l)

/-- Optional exponent part of a JSON number. -/
def parseExpPart : List Char → Except String (List Char × List Char)
  | c :: rest =>
    if c = 'e' || c = 'E' then
      match rest with
      | s :: rest2 =>
        if s = '+' || s = '-' then
          let d := spanDigits rest2
          if d.1.isEmpty then .error "Invalid number" else .ok (c :: s :: d.1, d.2)
        else
          let d := spanDigits rest
          if d.1.isEmpty then .error "Invalid number" else .ok (c :: d.1, d.2)
      | [] => .error "Invalid number"
    else .ok ([], c :: rest)
  | [] => .ok ([], [])

/-- Parse a JSON number, returned as its lexeme. -/
def parseNumber (l : List Char) : Except String (String × List Char) :=
  let sl : List Char × List Char := match l with
    | '-' :: r => (['-'], r)
    | _ => ([], l)
  match parseIntPart sl.2 with
  | .error e => .error e
  | .ok (ip, l2) =>
    match parseFracPart l2 with
    | .error e => .error e
    | .ok (fp, l3) =>
      match parseExpPart l3 with
      | .error e => .error e
      | .ok (ep, l4) => .ok (String.mk (sl.1 ++ ip ++ fp ++ ep), l4)

/-! ### The recursive-descent JSON parser

One fueled function covers the three mutually recursive productions
(value, object members, array elements), selected by a mode tag, so the
whole parser is structurally recursive on the fuel and computes by
kernel reduction. -/

inductive PMode where
  | value
  | members
  | elements

inductive POut where
  | val (v : JsonValue)
  | mems (ms : List (String × JsonValue))
  | elems (vs : List JsonValue)

def parseRun : Nat → PMode → List Char → Except String (POut × List Char)
  | 0, _, _ => .error "Too much nesting"
  | Nat.succ n, PMode.value, l =>
    match skipWs l with
    | '\x7b' :: rest =>
      (match skipWs rest with
       | '\x7d' :: rest2 => .ok (POut.val (JsonValue.obj []), rest2)
       | rest2 =>
         match parseRun n PMode.members rest2 with
         | .ok (POut.mems ms, rest3) => .ok (POut.val (JsonValue.obj ms), rest3)
         | .ok _ => .error "internal"
         | .error e => .error e)
    | '[' :: rest =>
      (match skipWs rest with
       | ']' :: rest2 => .ok (POut.val (JsonValue.arr []), rest2)
       | rest2 =>
         match parseRun n PMode.elements rest2 with
         | .ok (POut.elems vs, rest3) => .ok (POut.val (JsonValue.arr vs), rest3)
         | .ok _ => .error "internal"
         | .error e => .error e)
    | '\x22' :: rest =>
      (match parseJStringAux rest with
       | .ok (cs, rest2) => .ok (POut.val (JsonValue.str (String.mk cs)), rest2)
       | .error e => .error e)
    | 't' :: 'r' :: 'u' :: 'e' :: rest => .ok (POut.val (JsonValue.bool true), rest)
    | 'f' :: 'a' :: 'l' :: 's' :: 'e' :: rest => .ok (POut.val (JsonValue.bool false), rest)
    | 'n' :: 'u' :: 'l' :: 'l' :: rest => .ok (POut.val JsonValue.null, rest)
    | l2 =>
      (match parseNumber l2 with
       | .ok (lex, rest) => .ok (POut.val (JsonValue.num lex), rest)
       | .error e => .error e)
  | Nat.succ n, PMode.members, l =>
    match skipWs l with
    | '\x22' :: rest =>
      (match parseJStringAux rest with
       | .error e => .error e
       | .ok (kcs, rest2) =>
         match skipWs rest2 with
         | ':' :: rest3 =>
           (match parseRun n PMode.value rest3 with
            | .ok (POut.val v, rest4) =>
              (match skipWs rest4 with
               | ',' :: rest5 =>
                 (match parseRun n PMode.members rest5 with
                  | .ok (POut.mems ms, rest6) =>
                    .ok (POut.mems ((String.mk kcs, v) :: ms), rest6)
                  | .ok _ => .error "internal"
                  | .error e => .error e)
               | '\x7d' :: rest5 => .ok (POut.mems [(String.mk kcs, v)], rest5)
               | _ => .error "Expecting delimiter")
            | .ok _ => .error "internal"
            | .error e => .error e)
         | _ => .error "Expecting colon delimiter"
       )
    | _ => .error "Expecting property name"
  | Nat.succ n, PMode.elements, l =>
    match parseRun n PMode.value l with
    | .ok (POut.val v, rest) =>
      (match skipWs rest with
       | ',' :: rest2 =>
         (match parseRun n PMode.elements rest2 with
          | .ok (POut.elems vs, rest3) => .ok (POut.elems (v :: vs), rest3)
          | .ok _ => .error "internal"
          | .error e => .error e)
       | ']' :: rest2 => .ok (POut.elems [v], rest2)
       | _ => .error "Expecting delimiter")
    | .ok _ => .error "internal"
    | .error e => .error e

/-- Model of Python json.loads: parse one JSON document and reject any
trailing non-whitespace.  The fuel 2 * length + 2 is enough because the
parser consumes at least one character for every two fuel units spent. -/
def json_loads (s : String) : Except String JsonValue :=
  match parseRun (2 * s.data.length + 2) PMode.value s.data with
  | .error e => .error e
  | .ok (POut.val v, rest) =>
    (match skipWs rest with
     | [] => .ok v
     | _ => .error "Extra data")
  | .ok (_, _) => .error "internal"

/-! ### Python string primitives used by the handlers -/

/-- Whitespace removed by Python str.strip with no argument. -/
def isPyWs (c : Char) : Bool :=
  c = ' ' || c = '\t' || c = '\n' || c = '\r' || c = '\x0b' || c = '\x0c'

/-- Python str.strip on a character list: drop whitespace at both ends. -/
def pyStripL (l : List Char) : List Char :=
  ((l.dropWhile isPyWs).reverse.dropWhile isPyWs).reverse

/-- Python str.strip. -/
def pyStrip (s : String) : String := String.mk (pyStripL s.data)

/-- Replace every non-overlapping occurrence of the pattern `p :: ps`,
scanning left to right as Python str.replace does.  The fuel only has to
cover the input length, since each step consumes at least one character. -/
def replaceFuel (p : Char) (ps repl : List Char) : Nat → List Char → List Char
  | _, [] => []
  | 0, l => l
  | Nat.succ n, c :: rest =>
    if (p :: ps).isPrefixOf (c :: rest) then
      repl ++ replaceFuel p ps repl n (rest.drop ps.length)
    else c :: replaceFuel p ps repl n rest

/-- Python str.replace.  (With an empty pattern Python would intersperse the
replacement; both patterns used by the source are nonempty, so the empty
case just returns the input.) -/
def pyReplace (s pat repl : String) : String :=
  match pat.data with
  | [] => s
  | p :: ps => String.mk (replaceFuel p ps repl.data s.data.length s.data)

/-- The inline cleaning both handlers apply to the oracle reply before
json.loads: response.text.strip, then removal of every occurrence of the
opening fence marker and of the bare fence marker (source lines 163 and
178). -/
def cleanOracleText (t : String) : String :=
  pyReplace (pyReplace (pyStrip t) "```json" "") "```" ""

/-- The JSON extraction step both handlers use on the raw oracle text:
clean the text and parse the whole remainder with json.loads. -/
def extract_step (t : String) : Except String JsonValue :=
  json_loads (cleanOracleText t)

/-- Modelled from the spec: the brace-scan extraction of spec section 4.1,
which the source does not implement.  It locates the first opening brace
and the last closing brace, takes the substring between them inclusive,
and parses it with the standard JSON parser.  Used only to compare the
specified algorithm with the implemented one. -/
def spec_extract_json (raw : String) : Except String JsonValue :=
  let l := raw.data
  let pre := l.takeWhile (fun c => c ≠ '\x7b')
  let sufRev := l.reverse.takeWhile (fun c => c ≠ '\x7d')
  if pre.length = l.length || sufRev.length = l.length then
    .error "NoObjectFound"
  else
    json_loads (String.mk ((l.drop pre.length).take (l.length - sufRev.length - pre.length)))

/-! ### Dictionary access and Python truthiness -/

/-- Lookup in the member list of a parsed JSON object, with the semantics
of a Python dict built by json.loads: on duplicate keys the last
occurrence wins. -/
def dictGet (ps : List (String × JsonValue)) (k : String) : Option JsonValue :=
  match ps with
  | [] => none
  | (k2, v) :: rest =>
    match dictGet rest k with
    | some r => some r
    | none => if k2 = k then some v else none

/-- Whether every mantissa digit of a number lexeme is zero, i.e. the
number equals zero and is falsy in Python. -/
def numLexIsZero (lex : String) : Bool :=
  (lex.data.takeWhile (fun c => c ≠ 'e' && c ≠ 'E')).all
    (fun c => !c.isDigit || c = '0')

/-- Python truthiness of the result of dict.get: None (absent key), JSON
null, false, zero, the empty string, the empty array and the empty object
are falsy; everything else is truthy. -/
def jsonTruthy : Option JsonValue → Bool
  | none => false
  | some JsonValue.null => false
  | some (JsonValue.bool b) => b
  | some (JsonValue.num lex) => !numLexIsZero lex
  | some (JsonValue.str s) => s ≠ ""
  | some (JsonValue.arr vs) => !vs.isEmpty
  | some (JsonValue.obj ms) => !ms.isEmpty

/-! ### Data model (source section 2 and 3) -/

/-- The authenticated user row (class User), restricted to the fields the
analysis handlers read. -/
structure User where
  email : String
  age : Option Int
  sex : Option String
  medical_history : Option String
  allergies : Option String

/-- The consultation row the refine handler persists (class Consultation,
source lines 182 to 187).  The recommendation and severity are stored
exactly as extracted from the oracle JSON; the database-generated id and
creation timestamp are outside the model. -/
structure Consultation where
  symptom : String
  final_recommendation : JsonValue
  severity_level : JsonValue
  owner_email : String

/-- Request body of the start operation (class SymptomRequest). -/
structure SymptomRequest where
  symptoms : String

/-- One question/answer exchange from the request history.  The source
carries these as two-key string dicts; both handlers read exactly the
keys question and answer. -/
structure DialogueTurn where
  question : String
  answer : String

/-- Request body of the advance operation (class RefineRequest). -/
structure RefineRequest where
  symptoms : String
  history : List DialogueTurn

/-- Response model of the start operation (class AnalysisResponse): six
required fields, no defaults. -/
structure AnalysisResponse where
  symptom : String
  differential_diagnoses : List String
  first_question : String
  answer_type : String
  recommendations : List String
  disclaimer : String

/-- Response model of the advance operation (class RefineResponse): two
optional decision fields, an answer type defaulting to yes_no, and an
optional severity. -/
structure RefineResponse where
  next_question : Option String
  answer_type : String
  final_recommendation : Option String
  severity_level : Option String

/-- An HTTPException as raised by the handlers. -/
structure HTTPError where
  status_code : Nat
  detail : String

/-- The status code of a handler outcome, if it failed. -/
def resultStatus {α : Type} : Except HTTPError α → Option Nat
  | .error e => some e.status_code
  | .ok _ => none

/-- Externally visible side effects of one handler run: the single
outbound oracle call, and each consultation record handed to the
persistence session. -/
inductive Event where
  | oracleCall (prompt : String)
  | save (record : Consultation)

/-! ### Pydantic field validation

Pydantic v2 with default configuration: required str fields accept only
strings, Optional str fields also accept null and absence, defaulted
fields take their default when the key is absent, list-of-str fields
accept only arrays of strings, and extra keys are ignored. -/

/-- A required str field. -/
def parseStrReq (pairs : List (String × JsonValue)) (k : String) : Except String String :=
  match dictGet pairs k with
  | some (JsonValue.str s) => .ok s
  | some _ => .error "validation error"
  | none => .error "validation error"

/-- An Optional str field defaulting to None. -/
def parseOptStrField (pairs : List (String × JsonValue)) (k : String) :
    Except String (Option String) :=
  match dictGet pairs k with
  | none => .ok none
  | some JsonValue.null => .ok none
  | some (JsonValue.str s) => .ok (some s)
  | some _ => .error "validation error"

/-- A str field with a default for an absent key. -/
def parseStrFieldD (pairs : List (String × JsonValue)) (k dflt : String) :
    Except String String :=
  match dictGet pairs k with
  | none => .ok dflt
  | some (JsonValue.str s) => .ok s
  | some _ => .error "validation error"

/-- A required List of str field. -/
def asStrList : List JsonValue → Except String (List String)
  | [] => .ok []
  | JsonValue.str s :: rest =>
    (match asStrList rest with
     | .ok ss => .ok (s :: ss)
     | .error e => .error e)
  | _ :: _ => .error "validation error"

/-- A required list-of-strings field. -/
def parseStrListReq (pairs : List (String × JsonValue)) (k : String) :
    Except String (List String) :=
  match dictGet pairs k with
  | some (JsonValue.arr vs) => asStrList vs
  | some _ => .error "validation error"
  | none => .error "validation error"

/-- Validation performed by AnalysisResponse(**analysis_data), source
line 164: all six fields are required. -/
def mkAnalysisResponse (pairs : List (String × JsonValue)) :
    Except String AnalysisResponse :=
  match parseStrReq pairs "symptom", parseStrListReq pairs "differential_diagnoses",
        parseStrReq pairs "first_question", parseStrReq pairs "answer_type",
        parseStrListReq pairs "recommendations", parseStrReq pairs "disclaimer" with
  | .ok sy, .ok dd, .ok fq, .ok a, .ok rc, .ok di => .ok ⟨sy, dd, fq, a, rc, di⟩
  | _, _, _, _, _, _ => .error "validation error"

/-- Validation performed by RefineResponse(**refine_data), source
line 191: every field optional or defaulted. -/
def mkRefineResponse (pairs : List (String × JsonValue)) :
    Except String RefineResponse :=
  match parseOptStrField pairs "next_question", parseStrFieldD pairs "answer_type" "yes_no",
        parseOptStrField pairs "final_recommendation", parseOptStrField pairs "severity_level" with
  | .ok nq, .ok a, .ok fr, .ok sl => .ok ⟨nq, a, fr, sl⟩
  | _, _, _, _ => .error "validation error"

/-! ### Prompt building (source lines 157 to 159 and 171 to 174) -/

/-- How a Python f-string renders an optional string: None or the text. -/
def pyShowOptStr : Option String → String
  | none => "None"
  | some s => s

/-- How a Python f-string renders an optional integer. -/
def pyShowOptInt : Option Int → String
  | none => "None"
  | some n => toString n

/-- Python str.join, structurally: separator between consecutive items. -/
def pyJoin (sep : String) : List String → String
  | [] => ""
  | [x] => x
  | x :: y :: rest => x ++ sep ++ pyJoin sep (y :: rest)

/-- The patient-context block both prompts start with (source lines 158
and 173). -/
def user_profile_context (u : User) : String :=
  "Contexte patient: Âge " ++ pyShowOptInt u.age ++ ", Sexe " ++ pyShowOptStr u.sex ++
    ". Antécédents: " ++ pyShowOptStr u.medical_history ++
    ". Allergies: " ++ pyShowOptStr u.allergies ++ "."

/-- The initial-analysis prompt (source line 159). -/
def build_initial_prompt (u : User) (symptoms : String) : String :=
  user_profile_context u ++ "\n\nAnalyse les symptômes suivants : \x22" ++ symptoms ++
    "\x22.\nTa réponse DOIT être un objet JSON valide..."

/-- The history serialization of source line 171: one Q line and one A
line per turn, in request order, joined by newlines. -/
def historyStr (h : List DialogueTurn) : String :=
  pyJoin "\n" (h.map (fun t => "Q: " ++ t.question ++ "\nA: " ++ t.answer))

/-- The refinement prompt (source line 174). -/
def build_refine_prompt (u : User) (symptoms : String) (history : List DialogueTurn) : String :=
  user_profile_context u ++ "\n\nSymptômes initiaux : \x22" ++ symptoms ++
    "\x22.\nHistorique: " ++ historyStr history ++ "\n\nTACHE: ..."

/-! ### The two handlers

The oracle call is passed in as its outcome (the reply text, or the
message of the exception the transport raised); the persistence commit
likewise.  Every oracle invocation and every record handed to the
session is recorded in the returned event list, in order.

The source guards both handlers with `if not GOOGLE_API_KEY` before any
oracle work.  This snapshot of main_api.py never binds GOOGLE_API_KEY;
the binding is modelled from the spec (section 4.3 and 9: the credential
is read once from the process environment, as the source does for
GOOGLE_MAPS_API_KEY on line 197), so the guard receives an optional
environment string whose Python truthiness is tested. -/

/-- Python truthiness of os.environ.get of the credential: set and
nonempty. -/
def pyTruthyKey : Option String → Bool
  | none => false
  | some s => s ≠ ""

/-- The start operation: POST /analysis (source lines 152 to 165). -/
def analyze_symptoms (googleApiKey : Option String) (req : SymptomRequest) (user : User)
    (oracle : Except String String) :
    Except HTTPError AnalysisResponse × List Event :=
  if pyTruthyKey googleApiKey then
    let prompt := build_initial_prompt user req.symptoms
    match oracle with
    | .error e => (.error ⟨503, "Erreur IA: " ++ e⟩, [Event.oracleCall prompt])
    | .ok text =>
      match extract_step text with
      | .error e => (.error ⟨503, "Erreur IA: " ++ e⟩, [Event.oracleCall prompt])
      | .ok (JsonValue.obj pairs) =>
        (match mkAnalysisResponse pairs with
         | .error e => (.error ⟨503, "Erreur IA: " ++ e⟩, [Event.oracleCall prompt])
         | .ok resp => (.ok resp, [Event.oracleCall prompt]))
      | .ok _ =>
        (.error ⟨503, "Erreur IA: argument must be a mapping"⟩, [Event.oracleCall prompt])
  else
    (.error ⟨500, "Clé API Google non configurée."⟩, [])

/-- The advance operation: POST /analysis/refine (source lines 167 to
192).  When the extracted final_recommendation is truthy, a Consultation
is built (KeyError if severity_level is absent), handed to the session
and committed, and only then is the response model validated; any
exception inside the try block becomes the generic 503. -/
def refine_analysis (googleApiKey : Option String) (req : RefineRequest) (user : User)
    (oracle : Except String String) (storeResult : Except String Unit) :
    Except HTTPError RefineResponse × List Event :=
  if pyTruthyKey googleApiKey then
    let prompt := build_refine_prompt user req.symptoms req.history
    match oracle with
    | .error e => (.error ⟨503, "Erreur IA: " ++ e⟩, [Event.oracleCall prompt])
    | .ok text =>
      match extract_step text with
      | .error e => (.error ⟨503, "Erreur IA: " ++ e⟩, [Event.oracleCall prompt])
      | .ok (JsonValue.obj pairs) =>
        if jsonTruthy (dictGet pairs "final_recommendation") then
          match dictGet pairs "severity_level" with
          | none =>
            (.error ⟨503, "Erreur IA: KeyError severity_level"⟩, [Event.oracleCall prompt])
          | some sev =>
            let record : Consultation :=
              ⟨req.symptoms, (dictGet pairs "final_recommendation").getD JsonValue.null,
               sev, user.email⟩
            (match storeResult with
             | .error e =>
               (.error ⟨503, "Erreur IA: " ++ e⟩,
                [Event.oracleCall prompt, Event.save record])
             | .ok _ =>
               match mkRefineResponse pairs with
               | .error e =>
                 (.error ⟨503, "Erreur IA: " ++ e⟩,
                  [Event.oracleCall prompt, Event.save record])
               | .ok resp => (.ok resp, [Event.oracleCall prompt, Event.save record]))
        else
          (match mkRefineResponse pairs with
           | .error e => (.error ⟨503, "Erreur IA: " ++ e⟩, [Event.oracleCall prompt])
           | .ok resp => (.ok resp, [Event.oracleCall prompt]))
      | .ok _ =>
        (.error ⟨503, "Erreur IA: argument must be a mapping"⟩, [Event.oracleCall prompt])
  else
    (.error ⟨500, "Clé API Google non configurée."⟩, [])

/-! ### Derived notions and concrete fixtures used by the theorems -/

/-- Whether a decision field of the extracted oracle object is populated:
the key is present and its value is not JSON null. -/
def populatedIn (pairs : List (String × JsonValue)) (k : String) : Bool :=
  match dictGet pairs k with
  | none => false
  | some JsonValue.null => false
  | some _ => true

/-- A fixed authenticated user for concrete runs. -/
def user0 : User := ⟨"alice@example.fr", none, none, none, none⟩

/-- A fixed refine request with empty history. -/
def req0 : RefineRequest := ⟨"mal de tete", []⟩

/-- A fixed start request. -/
def sreq0 : SymptomRequest := ⟨"mal de tete"⟩

/-- Oracle reply populating both decision shapes at once. -/
def textBoth : String :=
  "\x7b\"next_question\": \"q\", \"final_recommendation\": \"r\", \"severity_level\": \"Urgent\"\x7d"

/-- Oracle reply populating only the ask-question shape. -/
def textAsk : String := "\x7b\"next_question\": \"Avez-vous de la fievre?\"\x7d"

/-- The scenario-D oracle reply. -/
def textFinal : String :=
  "\x7b\"severity_level\": \"Urgent\", \"final_recommendation\": \"Seek emergency care immediately.\"\x7d"

/-- An oracle reply that is plain prose without braces. -/
def textProse : String := "Je ne peux pas repondre a cette question."

/-- An initial-analysis oracle reply lacking the first question. -/
def textNoFq : String :=
  "\x7b\"symptom\": \"mal de tete\", \"differential_diagnoses\": [\"migraine\"], \"answer_type\": \"yes_no\", \"recommendations\": [\"repos\"], \"disclaimer\": \"Information generale.\"\x7d"

/-- A final-recommendation oracle reply with no answer type. -/
def textNoAT : String :=
  "\x7b\"final_recommendation\": \"Consultez un medecin.\", \"severity_level\": \"Modere\"\x7d"

/-- An oracle reply whose final recommendation is the empty string. -/
def textEmptyFR : String := "\x7b\"next_question\": \"q\", \"final_recommendation\": \"\"\x7d"

/-- A JSON object surrounded by prose commentary. -/
def textObjInProse : String := "Voici la reponse: \x7b\"a\": \"b\"\x7d"

/-! ## Helper lemmas -/

/-- Membership survives dropWhile in reverse: what is left was in the input. -/
theorem mem_of_mem_dropWhile (pfn : Char → Bool) :
    ∀ (l : List Char) (x : Char), x ∈ l.dropWhile pfn → x ∈ l := by
  intro l
  induction l with
  | nil => intro x h; simp at h
  | cons c rest ih =>
    intro x h
    rw [List.dropWhile_cons] at h
    by_cases hc : pfn c = true
    · simp only [hc, if_true] at h
      exact List.mem_cons_of_mem _ (ih x h)
    · simp only [hc, if_false] at h
      exact h

/-- Membership in the stripped list implies membership in the input. -/
theorem mem_of_mem_pyStripL (l : List Char) (x : Char) (h : x ∈ pyStripL l) : x ∈ l := by
  unfold pyStripL at h
  rw [List.mem_reverse] at h
  have h2 := mem_of_mem_dropWhile isPyWs _ _ h
  rw [List.mem_reverse] at h2
  exact mem_of_mem_dropWhile isPyWs _ _ h2

/-- Replacement by the empty string only removes characters. -/
theorem mem_of_mem_replaceFuel (p : Char) (ps : List Char) :
    ∀ (n : Nat) (l : List Char) (x : Char), x ∈ replaceFuel p ps [] n l → x ∈ l := by
  intro n
  induction n with
  | zero =>
    intro l x h
    cases l with
    | nil => simp [replaceFuel] at h
    | cons c rest => exact h
  | succ n ih =>
    intro l x h
    cases l with
    | nil => simp [replaceFuel] at h
    | cons c rest =>
      rw [replaceFuel] at h
      by_cases hp : (p :: ps).isPrefixOf (c :: rest) = true
      · simp only [hp, if_true, List.nil_append] at h
        exact List.mem_cons_of_mem _ (List.drop_subset _ _ (ih _ x h))
      · simp only [hp, if_false] at h
        rcases List.mem_cons.mp h with h1 | h1
        · exact List.mem_cons.mpr (Or.inl h1)
        · exact List.mem_cons_of_mem _ (ih _ x h1)

/-- Replacement by the empty string, at the level of strings. -/
theorem mem_of_mem_pyReplace (s pat : String) (x : Char)
    (h : x ∈ (pyReplace s pat "").data) : x ∈ s.data := by
  unfold pyReplace at h
  cases hp : pat.data with
  | nil => rw [hp] at h; exact h
  | cons p ps =>
    rw [hp] at h
    exact mem_of_mem_replaceFuel p ps _ _ x h

/-- The fence-cleaning step only removes characters. -/
theorem mem_of_mem_cleanOracleText (t : String) (x : Char)
    (h : x ∈ (cleanOracleText t).data) : x ∈ t.data := by
  unfold cleanOracleText at h
  have h1 := mem_of_mem_pyReplace _ "```" x h
  have h2 := mem_of_mem_pyReplace _ "```json" x h1
  exact mem_of_mem_pyStripL _ x h2

/-- A list is a Boolean prefix of itself followed by anything. -/
theorem isPrefixOf_self_append (ps r : List Char) : ps.isPrefixOf (ps ++ r) = true := by
  induction ps with
  | nil => simp
  | cons a as ih => simp [List.isPrefixOf_cons₂, ih]

/-- A nonempty pattern is not a prefix of a list starting with a different
character. -/
theorem isPrefixOf_cons_of_ne (p c : Char) (ps l : List Char) (h : p ≠ c) :
    (p :: ps).isPrefixOf (c :: l) = false := by
  have h1 : ((p :: ps).isPrefixOf (c :: l)) = (p == c && ps.isPrefixOf l) := rfl
  rw [h1, beq_eq_false_iff_ne.mpr h, Bool.false_and]

/-- Scanning past a block that does not contain the pattern head copies it
verbatim, spending fuel one character at a time. -/
theorem replaceFuel_skip (p : Char) (ps repl : List Char) :
    ∀ (t : List Char) (n : Nat) (rest : List Char), p ∉ t →
      replaceFuel p ps repl (t.length + n) (t ++ rest) = t ++ replaceFuel p ps repl n rest := by
  intro t
  induction t with
  | nil => intro n rest _; simp
  | cons c t2 ih =>
    intro n rest hp
    have hpc : p ≠ c := fun he => hp (by rw [he]; exact List.mem_cons_self c t2)
    have hfuel : (c :: t2).length + n = Nat.succ (t2.length + n) := by
      rw [List.length_cons]; omega
    rw [hfuel, List.cons_append, replaceFuel, isPrefixOf_cons_of_ne p c ps _ hpc]
    simp only [Bool.false_eq_true, if_false]
    rw [ih n rest (fun hm => hp (List.mem_cons_of_mem _ hm))]
    rfl

/-- One replacement step at an exact pattern occurrence at the head. -/
theorem replaceFuel_head (p : Char) (ps repl : List Char) (n : Nat) (rest : List Char) :
    replaceFuel p ps repl (Nat.succ n) (p :: (ps ++ rest)) =
      repl ++ replaceFuel p ps repl n rest := by
  rw [replaceFuel]
  have hpre : ((p :: ps).isPrefixOf (p :: (ps ++ rest))) = true := by
    have h1 : ((p :: ps).isPrefixOf (p :: (ps ++ rest))) = (p == p && ps.isPrefixOf (ps ++ rest)) := rfl
    rw [h1, beq_self_eq_true, isPrefixOf_self_append, Bool.and_self]
  rw [hpre]
  simp [List.drop_left]

/-- Auxiliary: dropWhile does nothing when the head fails the predicate. -/
theorem dropWhile_cons_false (pfn : Char → Bool) (c : Char) (l : List Char)
    (h : pfn c = false) : (c :: l).dropWhile pfn = c :: l := by
  rw [List.dropWhile_cons, h]
  simp

/-- Python strip leaves a list alone when both ends are non-whitespace. -/
theorem pyStripL_of_ends (x : List Char) (c d : Char)
    (hc : isPyWs c = false) (hd : isPyWs d = false) :
    pyStripL (c :: (x ++ [d])) = c :: (x ++ [d]) := by
  unfold pyStripL
  rw [dropWhile_cons_false isPyWs c _ hc]
  have h1 : (c :: (x ++ [d])).reverse = d :: (x.reverse ++ [c]) := by simp
  rw [h1, dropWhile_cons_false isPyWs d _ hd, ← h1, List.reverse_reverse]

/-- First fence-removal pass, at the list level: with no backtick in the
body, it strips the opening fence and leaves the closing one. -/
theorem rep1L (u : List Char) (h : '\x60' ∉ u) :
    replaceFuel '\x60' "``json".data []
      (('\x60' :: ("``json".data ++ (u ++ ['\x60', '\x60', '\x60']))).length)
      ('\x60' :: ("``json".data ++ (u ++ ['\x60', '\x60', '\x60']))) = u ++ ['\x60', '\x60', '\x60'] := by
  rw [List.length_cons]
  rw [show ("``json".data ++ (u ++ ['\x60', '\x60', '\x60'])).length + 1 =
        Nat.succ (("``json".data ++ (u ++ ['\x60', '\x60', '\x60'])).length) from rfl]
  rw [replaceFuel_head]
  have hm : ("``json".data ++ (u ++ ['\x60', '\x60', '\x60'])).length = u.length + 9 := by
    rw [List.length_append, List.length_append]
    rw [show ("``json".data).length = 6 from rfl]
    rw [show (['\x60', '\x60', '\x60'] : List Char).length = 3 from rfl]
    omega
  rw [hm, replaceFuel_skip '\x60' "``json".data [] u 9 ['\x60', '\x60', '\x60'] h]
  rw [show replaceFuel '\x60' "``json".data [] 9 ['\x60', '\x60', '\x60'] = ['\x60', '\x60', '\x60'] from rfl]
  simp

/-- Second fence-removal pass, at the list level: with no backtick in the
body, it strips the closing fence. -/
theorem rep2L (u : List Char) (h : '\x60' ∉ u) :
    replaceFuel '\x60' "``".data [] ((u ++ ['\x60', '\x60', '\x60']).length) (u ++ ['\x60', '\x60', '\x60']) = u := by
  have hm : (u ++ ['\x60', '\x60', '\x60']).length = u.length + 3 := by
    rw [List.length_append]
    rw [show (['\x60', '\x60', '\x60'] : List Char).length = 3 from rfl]
  rw [hm, replaceFuel_skip '\x60' "``".data [] u 3 ['\x60', '\x60', '\x60'] h]
  rw [show replaceFuel '\x60' "``".data [] 3 ['\x60', '\x60', '\x60'] = ([] : List Char) from rfl]
  simp

/-- The cleaning step used by the handlers returns exactly the fenced body when the
oracle wraps its JSON in code-fence markers and the body contains no
backtick. -/
theorem cleanOracleText_fenced (t : String) (hbt : '\x60' ∉ t.data) :
    cleanOracleText ("```json" ++ t ++ "```") = t := by
  have hshape1 : ("```json" ++ t ++ "```").data =
      '\x60' :: (("``json".data ++ (t.data ++ ['\x60', '\x60'])) ++ ['\x60']) := by
    rw [String.data_append, String.data_append]
    rw [show "```json".data = '\x60' :: "``json".data from rfl]
    rw [show "```".data = (['\x60', '\x60', '\x60'] : List Char) from rfl]
    simp [List.append_assoc]
  have hshape2 : ("```json" ++ t ++ "```").data =
      '\x60' :: ("``json".data ++ (t.data ++ ['\x60', '\x60', '\x60'])) := by
    rw [String.data_append, String.data_append]
    rw [show "```json".data = '\x60' :: "``json".data from rfl]
    rw [show "```".data = (['\x60', '\x60', '\x60'] : List Char) from rfl]
    simp [List.append_assoc]
  unfold cleanOracleText
  have hstrip : pyStrip ("```json" ++ t ++ "```") = "```json" ++ t ++ "```" := by
    unfold pyStrip
    rw [hshape1, pyStripL_of_ends _ '\x60' '\x60' rfl rfl, ← hshape1]
  rw [hstrip]
  have h1 : pyReplace ("```json" ++ t ++ "```") "```json" "" =
      String.mk (t.data ++ ['\x60', '\x60', '\x60']) := by
    show String.mk (replaceFuel '\x60' "``json".data []
        ("```json" ++ t ++ "```").data.length ("```json" ++ t ++ "```").data) = _
    rw [hshape2, rep1L t.data hbt]
  rw [h1]
  show String.mk (replaceFuel '\x60' "``".data []
      (String.mk (t.data ++ ['\x60', '\x60', '\x60'])).data.length
      (String.mk (t.data ++ ['\x60', '\x60', '\x60'])).data) = t
  rw [show (String.mk (t.data ++ ['\x60', '\x60', '\x60'])).data = t.data ++ ['\x60', '\x60', '\x60'] from rfl]
  rw [rep2L t.data hbt]

set_option maxHeartbeats 1000000 in
/-- A successful top-level object parse means an opening brace was present
in the input: the value production returns an object only from its
opening-brace branch. -/
theorem parseRun_value_obj_mem (fuel : Nat) (l : List Char) (ms : List (String × JsonValue))
    (r : List Char) (h : parseRun fuel PMode.value l = .ok (POut.val (JsonValue.obj ms), r)) :
    '\x7b' ∈ l := by
  cases fuel with
  | zero => exact absurd h (by simp [parseRun])
  | succ n =>
    rw [parseRun] at h
    split at h
    · rename_i rest heq
      exact mem_of_mem_dropWhile isJsonWs l '\x7b'
        (by show '\x7b' ∈ skipWs l; rw [heq]; exact List.mem_cons_self _ _)
    all_goals (repeat' (split at h)) <;> simp_all

/-- json.loads returns a top-level object only when the text had an
opening brace. -/
theorem json_loads_obj_mem (s : String) (ms : List (String × JsonValue))
    (h : json_loads s = .ok (JsonValue.obj ms)) : '\x7b' ∈ s.data := by
  unfold json_loads at h
  split at h
  · simp_all
  · rename_i v rest heq
    split at h
    · rename_i hsw
      have hv : v = JsonValue.obj ms := by
        injection h
      rw [hv] at heq
      exact parseRun_value_obj_mem _ _ ms _ heq
    · simp_all
  · simp_all

/-- The extraction step used by the handlers returns an object only when the raw
oracle text contained an opening brace. -/
theorem extract_step_obj_mem (t : String) (ms : List (String × JsonValue))
    (h : extract_step t = .ok (JsonValue.obj ms)) : '\x7b' ∈ t.data :=
  mem_of_mem_cleanOracleText t _ (json_loads_obj_mem _ ms h)

/-- Inversion of RefineResponse validation: on success every field is
exactly what its field parser produced. -/
theorem mkRefineResponse_fields (pairs : List (String × JsonValue)) (resp : RefineResponse)
    (h : mkRefineResponse pairs = .ok resp) :
    parseOptStrField pairs "next_question" = .ok resp.next_question ∧
    parseStrFieldD pairs "answer_type" "yes_no" = .ok resp.answer_type ∧
    parseOptStrField pairs "final_recommendation" = .ok resp.final_recommendation ∧
    parseOptStrField pairs "severity_level" = .ok resp.severity_level := by
  unfold mkRefineResponse at h
  split at h
  · rename_i nq a fr sl h1 h2 h3 h4
    injection h with h5
    subst h5
    exact ⟨h1, h2, h3, h4⟩
  · simp_all

/-- A successfully validated Optional str field is populated exactly when
the key is present with a non-null value. -/
theorem parseOptStrField_isSome (pairs : List (String × JsonValue)) (k : String)
    (o : Option String) (h : parseOptStrField pairs k = .ok o) :
    o.isSome = populatedIn pairs k := by
  unfold parseOptStrField at h
  unfold populatedIn
  cases hd : dictGet pairs k with
  | none =>
    rw [hd] at h
    injection h with h2
    rw [← h2]
    rfl
  | some v =>
    rw [hd] at h
    cases v with
    | null => injection h with h2; rw [← h2]; rfl
    | str s => injection h with h2; rw [← h2]; rfl
    | bool b => exact absurd h (by simp)
    | num lex => exact absurd h (by simp)
    | arr vs => exact absurd h (by simp)
    | obj ms2 => exact absurd h (by simp)

/-- A successfully validated defaulted str field takes its default when
the key is absent. -/
theorem parseStrFieldD_of_none (pairs : List (String × JsonValue)) (k dflt : String)
    (hd : dictGet pairs k = none) : parseStrFieldD pairs k dflt = .ok dflt := by
  unfold parseStrFieldD
  rw [hd]

/-- An Optional str field validated against a present string value yields
exactly that string. -/
theorem parseOptStrField_of_str (pairs : List (String × JsonValue)) (k s : String)
    (hd : dictGet pairs k = some (JsonValue.str s)) :
    parseOptStrField pairs k = .ok (some s) := by
  unfold parseOptStrField
  rw [hd]

/-- Inversion of AnalysisResponse validation: success requires the first
question key to be present with a string value. -/
theorem mkAnalysisResponse_first_question (pairs : List (String × JsonValue))
    (r : AnalysisResponse) (h : mkAnalysisResponse pairs = .ok r) :
    dictGet pairs "first_question" = some (JsonValue.str r.first_question) := by
  unfold mkAnalysisResponse at h
  split at h
  · rename_i sy dd fq a rc di h1 h2 h3 h4 h5 h6
    injection h with h7
    subst h7
    unfold parseStrReq at h3
    cases hd : dictGet pairs "first_question" with
    | none => rw [hd] at h3; exact absurd h3 (by simp)
    | some v =>
      rw [hd] at h3
      cases v <;> simp_all
  · simp_all

/-- Inversion of a successful advance run: when the extraction produced an
object and the handler returned a decision, that decision is exactly the
validated RefineResponse of the extracted pairs. -/
theorem refine_fst_ok_inversion (key : Option String) (req : RefineRequest) (user : User)
    (t : String) (store : Except String Unit) (resp : RefineResponse)
    (pairs : List (String × JsonValue))
    (hx : extract_step t = .ok (JsonValue.obj pairs))
    (hfst : (refine_analysis key req user (.ok t) store).1 = .ok resp) :
    mkRefineResponse pairs = .ok resp := by
  unfold refine_analysis at hfst
  by_cases hk : pyTruthyKey key = true
  · rw [hk, if_pos rfl] at hfst
    dsimp only at hfst
    rw [hx] at hfst
    dsimp only at hfst
    by_cases hft : jsonTruthy (dictGet pairs "final_recommendation") = true
    · rw [if_pos hft] at hfst
      cases hsev : dictGet pairs "severity_level" with
      | none => rw [hsev] at hfst; simp at hfst
      | some sev =>
        rw [hsev] at hfst
        dsimp only at hfst
        cases store with
        | error e => simp at hfst
        | ok u =>
          cases hmk : mkRefineResponse pairs with
          | error e => rw [hmk] at hfst; simp at hfst
          | ok r2 =>
            rw [hmk] at hfst
            dsimp only at hfst
            injection hfst with h2
            rw [← h2]
    · rw [if_neg hft] at hfst
      cases hmk : mkRefineResponse pairs with
      | error e => rw [hmk] at hfst; simp at hfst
      | ok r2 =>
        rw [hmk] at hfst
        dsimp only at hfst
        injection hfst with h2
        rw [← h2]
  · rw [if_neg hk] at hfst
    simp at hfst

/-! ## Claim theorems -/

/-- C1 (counterexample): on an oracle output that violates the exclusivity
invariant by populating both next_question and final_recommendation,
advance does not raise any ContractViolation error: it returns a decision
carrying both fields, contrary to the claim. -/
theorem C1_counterexample :
    (refine_analysis (some "test-key") req0 user0 (.ok textBoth) (.ok ())).1 =
      .ok ⟨some "q", "yes_no", some "r", some "Urgent"⟩ := rfl

/-- C1 (amended): the exclusivity-preservation half of the claim holds:
whenever the extracted oracle object itself populates exactly one of
next_question and final_recommendation, any decision returned by advance
populates exactly one of the two; but no ContractViolation is raised on
violating outputs, which are passed through instead. -/
theorem C1_exclusivity_passthrough (key : Option String) (req : RefineRequest) (user : User)
    (t : String) (store : Except String Unit) (pairs : List (String × JsonValue))
    (resp : RefineResponse)
    (hx : extract_step t = .ok (JsonValue.obj pairs))
    (hexcl : populatedIn pairs "next_question" ≠ populatedIn pairs "final_recommendation")
    (hfst : (refine_analysis key req user (.ok t) store).1 = .ok resp) :
    resp.next_question.isSome ≠ resp.final_recommendation.isSome := by
  have hmk := refine_fst_ok_inversion key req user t store resp pairs hx hfst
  obtain ⟨h1, _, h3, _⟩ := mkRefineResponse_fields pairs resp hmk
  rw [parseOptStrField_isSome pairs _ _ h1, parseOptStrField_isSome pairs _ _ h3]
  exact hexcl

/-- C1 (witness): a concrete exclusive oracle output, passed through with
exactly the ask-question side populated. -/
theorem C1_exclusivity_passthrough_witness :
    extract_step textAsk =
      .ok (JsonValue.obj [("next_question", JsonValue.str "Avez-vous de la fievre?")]) ∧
    (populatedIn [("next_question", JsonValue.str "Avez-vous de la fievre?")] "next_question" ≠
      populatedIn [("next_question", JsonValue.str "Avez-vous de la fievre?")] "final_recommendation") ∧
    (refine_analysis (some "test-key") req0 user0 (.ok textAsk) (.ok ())).1 =
      .ok ⟨some "Avez-vous de la fievre?", "yes_no", none, none⟩ ∧
    ((⟨some "Avez-vous de la fievre?", "yes_no", none, none⟩ : RefineResponse).next_question.isSome ≠
      (⟨some "Avez-vous de la fievre?", "yes_no", none, none⟩ : RefineResponse).final_recommendation.isSome) :=
  ⟨rfl, by decide, rfl,
   C1_exclusivity_passthrough (some "test-key") req0 user0 textAsk (.ok ())
     [("next_question", JsonValue.str "Avez-vous de la fievre?")]
     ⟨some "Avez-vous de la fievre?", "yes_no", none, none⟩ rfl (by decide) rfl⟩

/-- C2 (counterexample): with prose before the object, the extraction used
by the handlers fails outright, while the brace-scan extraction described
by the spec would return the embedded object: the implementation does not
take the substring from the first opening brace to the last closing
brace. -/
theorem C2_counterexample :
    extract_step textObjInProse = .error "Expecting value" ∧
    spec_extract_json textObjInProse = .ok (JsonValue.obj [("a", JsonValue.str "b")]) :=
  ⟨rfl, rfl⟩

/-- C2 (amended): the extraction step strips surrounding whitespace and
removes the code-fence markers, then parses the whole remainder: a
well-formed JSON document wrapped only in fences (with no backtick in the
body) is returned unchanged, whereas other surrounding prose causes a
parse failure instead of brace-scan extraction. -/
theorem C2_fenced_extraction (t : String) (v : JsonValue)
    (hparse : json_loads t = .ok v) (hbt : '\x60' ∉ t.data) :
    extract_step ("```json" ++ t ++ "```") = .ok v := by
  unfold extract_step
  rw [cleanOracleText_fenced t hbt, hparse]

/-- C2 (witness): a concrete fenced object is extracted unchanged. -/
theorem C2_fenced_extraction_witness :
    json_loads "\n\x7b\"a\": \"b\"\x7d\n" = .ok (JsonValue.obj [("a", JsonValue.str "b")]) ∧
    '\x60' ∉ "\n\x7b\"a\": \"b\"\x7d\n".data ∧
    extract_step ("```json" ++ "\n\x7b\"a\": \"b\"\x7d\n" ++ "```") =
      .ok (JsonValue.obj [("a", JsonValue.str "b")]) :=
  ⟨rfl, by decide,
   C2_fenced_extraction "\n\x7b\"a\": \"b\"\x7d\n" (JsonValue.obj [("a", JsonValue.str "b")])
     rfl (by decide)⟩

/-- C3: when the extracted oracle output is the scenario-D final
recommendation and the commit succeeds, advance returns the
final-recommendation decision and hands exactly one consultation record
to the session, carrying the original symptom text, the recommendation
text, the Urgent severity and the owning identity. -/
theorem C3_final_recommendation_persists (key : Option String) (req : RefineRequest)
    (user : User) (t : String)
    (hk : pyTruthyKey key = true)
    (hx : extract_step t = .ok (JsonValue.obj
      [("severity_level", JsonValue.str "Urgent"),
       ("final_recommendation", JsonValue.str "Seek emergency care immediately.")])) :
    refine_analysis key req user (.ok t) (.ok ()) =
      (.ok ⟨none, "yes_no", some "Seek emergency care immediately.", some "Urgent"⟩,
       [Event.oracleCall (build_refine_prompt user req.symptoms req.history),
        Event.save ⟨req.symptoms, JsonValue.str "Seek emergency care immediately.",
          JsonValue.str "Urgent", user.email⟩]) := by
  unfold refine_analysis
  rw [hk]
  dsimp only
  rw [hx]
  rfl

/-- C3 (witness): the scenario-D run on a concrete request. -/
theorem C3_final_recommendation_persists_witness :
    pyTruthyKey (some "test-key") = true ∧
    extract_step textFinal = .ok (JsonValue.obj
      [("severity_level", JsonValue.str "Urgent"),
       ("final_recommendation", JsonValue.str "Seek emergency care immediately.")]) ∧
    refine_analysis (some "test-key") req0 user0 (.ok textFinal) (.ok ()) =
      (.ok ⟨none, "yes_no", some "Seek emergency care immediately.", some "Urgent"⟩,
       [Event.oracleCall (build_refine_prompt user0 req0.symptoms req0.history),
        Event.save ⟨req0.symptoms, JsonValue.str "Seek emergency care immediately.",
          JsonValue.str "Urgent", user0.email⟩]) :=
  ⟨rfl, rfl,
   C3_final_recommendation_persists (some "test-key") req0 user0 textFinal rfl rfl⟩

/-- C4: with no oracle credential configured, both start and advance fail
with the 500 server-misconfiguration error and produce no events at all:
in particular the oracle is never invoked on the unconfigured path.  The
GOOGLE_API_KEY binding itself is absent from this snapshot and is
modelled from the spec as an optional environment string. -/
theorem C4_unconfigured_fails_before_call (key : Option String)
    (req1 : SymptomRequest) (user1 : User) (oracle1 : Except String String)
    (req2 : RefineRequest) (user2 : User) (oracle2 : Except String String)
    (store : Except String Unit) (hk : pyTruthyKey key = false) :
    analyze_symptoms key req1 user1 oracle1 =
      (.error ⟨500, "Clé API Google non configurée."⟩, []) ∧
    refine_analysis key req2 user2 oracle2 store =
      (.error ⟨500, "Clé API Google non configurée."⟩, []) := by
  unfold analyze_symptoms refine_analysis
  rw [hk]
  exact ⟨rfl, rfl⟩

/-- C4 (witness): a concrete unconfigured run of both operations. -/
theorem C4_unconfigured_fails_before_call_witness :
    pyTruthyKey none = false ∧
    (analyze_symptoms none sreq0 user0 (.ok "x") =
       (.error ⟨500, "Clé API Google non configurée."⟩, []) ∧
     refine_analysis none req0 user0 (.ok "x") (.ok ()) =
       (.error ⟨500, "Clé API Google non configurée."⟩, [])) :=
  ⟨rfl, C4_unconfigured_fails_before_call none sreq0 user0 (.ok "x") req0 user0 (.ok "x")
    (.ok ()) rfl⟩

/-- C5 (counterexample): when the oracle object lacks the first question,
start does not substitute the fallback question text: the whole turn
fails with the generic 503 failure, contrary to the claim. -/
theorem C5_counterexample :
    (analyze_symptoms (some "test-key") sreq0 user0 (.ok textNoFq)).1 =
      .error ⟨503, "Erreur IA: validation error"⟩ := rfl

/-- C5 (amended): when the parsed oracle reply is an object without a
first question, start fails the whole turn with the generic 503 failure:
no fallback question is substituted and no result is returned. -/
theorem C5_missing_first_question_fails (key : Option String) (req : SymptomRequest)
    (user : User) (t : String) (pairs : List (String × JsonValue))
    (hk : pyTruthyKey key = true)
    (hx : extract_step t = .ok (JsonValue.obj pairs))
    (hfq : dictGet pairs "first_question" = none) :
    resultStatus (analyze_symptoms key req user (.ok t)).1 = some 503 := by
  unfold analyze_symptoms
  rw [hk]
  dsimp only
  rw [hx]
  dsimp only
  cases hmk : mkAnalysisResponse pairs with
  | error e => rfl
  | ok r =>
    have hq := mkAnalysisResponse_first_question pairs r hmk
    rw [hfq] at hq
    exact absurd hq (by simp)

/-- C5 (witness): the concrete reply without a first question makes start
fail with status 503. -/
theorem C5_missing_first_question_fails_witness :
    pyTruthyKey (some "test-key") = true ∧
    extract_step textNoFq = .ok (JsonValue.obj
      [("symptom", JsonValue.str "mal de tete"),
       ("differential_diagnoses", JsonValue.arr [JsonValue.str "migraine"]),
       ("answer_type", JsonValue.str "yes_no"),
       ("recommendations", JsonValue.arr [JsonValue.str "repos"]),
       ("disclaimer", JsonValue.str "Information generale.")]) ∧
    dictGet
      [("symptom", JsonValue.str "mal de tete"),
       ("differential_diagnoses", JsonValue.arr [JsonValue.str "migraine"]),
       ("answer_type", JsonValue.str "yes_no"),
       ("recommendations", JsonValue.arr [JsonValue.str "repos"]),
       ("disclaimer", JsonValue.str "Information generale.")] "first_question" = none ∧
    resultStatus (analyze_symptoms (some "test-key") sreq0 user0 (.ok textNoFq)).1 = some 503 :=
  ⟨rfl, rfl, rfl,
   C5_missing_first_question_fails (some "test-key") sreq0 user0 textNoFq
     [("symptom", JsonValue.str "mal de tete"),
      ("differential_diagnoses", JsonValue.arr [JsonValue.str "migraine"]),
      ("answer_type", JsonValue.str "yes_no"),
      ("recommendations", JsonValue.arr [JsonValue.str "repos"]),
      ("disclaimer", JsonValue.str "Information generale.")] rfl rfl rfl⟩

/-- C6 (counterexample): when the commit fails during the save of a valid
final recommendation, the already-computed decision is not returned: the
request fails with the generic 503 failure, contrary to the claim. -/
theorem C6_counterexample :
    (refine_analysis (some "test-key") req0 user0 (.ok textFinal) (.error "db down")).1 =
      .error ⟨503, "Erreur IA: db down"⟩ := rfl

/-- C6 (amended): a storage failure during the save aborts the request:
the handler reports the generic 503 failure and the computed decision is
not returned, although the record had already been handed to the
session. -/
theorem C6_storage_failure_masks_decision (key : Option String) (req : RefineRequest)
    (user : User) (t : String) (pairs : List (String × JsonValue)) (sev : JsonValue)
    (e : String)
    (hk : pyTruthyKey key = true)
    (hx : extract_step t = .ok (JsonValue.obj pairs))
    (hft : jsonTruthy (dictGet pairs "final_recommendation") = true)
    (hsev : dictGet pairs "severity_level" = some sev) :
    refine_analysis key req user (.ok t) (.error e) =
      (.error ⟨503, "Erreur IA: " ++ e⟩,
       [Event.oracleCall (build_refine_prompt user req.symptoms req.history),
        Event.save ⟨req.symptoms, (dictGet pairs "final_recommendation").getD JsonValue.null,
          sev, user.email⟩]) := by
  unfold refine_analysis
  rw [hk]
  dsimp only
  rw [hx]
  dsimp only
  rw [if_pos hft, hsev]
  rfl

/-- C6 (witness): the concrete scenario-D reply with a failing commit. -/
theorem C6_storage_failure_masks_decision_witness :
    pyTruthyKey (some "test-key") = true ∧
    extract_step textFinal = .ok (JsonValue.obj
      [("severity_level", JsonValue.str "Urgent"),
       ("final_recommendation", JsonValue.str "Seek emergency care immediately.")]) ∧
    jsonTruthy (dictGet
      [("severity_level", JsonValue.str "Urgent"),
       ("final_recommendation", JsonValue.str "Seek emergency care immediately.")]
      "final_recommendation") = true ∧
    dictGet
      [("severity_level", JsonValue.str "Urgent"),
       ("final_recommendation", JsonValue.str "Seek emergency care immediately.")]
      "severity_level" = some (JsonValue.str "Urgent") ∧
    refine_analysis (some "test-key") req0 user0 (.ok textFinal) (.error "db down") =
      (.error ⟨503, "Erreur IA: db down"⟩,
       [Event.oracleCall (build_refine_prompt user0 req0.symptoms req0.history),
        Event.save ⟨req0.symptoms, JsonValue.str "Seek emergency care immediately.",
          JsonValue.str "Urgent", user0.email⟩]) :=
  ⟨rfl, rfl, rfl, rfl,
   C6_storage_failure_masks_decision (some "test-key") req0 user0 textFinal
     [("severity_level", JsonValue.str "Urgent"),
      ("final_recommendation", JsonValue.str "Seek emergency care immediately.")]
     (JsonValue.str "Urgent") "db down" rfl rfl rfl rfl⟩

/-- C7: when the oracle reply contains no opening brace, advance fails
with the generic 503 AI-communication failure and the only recorded
event is the oracle call itself: no consultation record is handed to the
session. -/
theorem C7_prose_reply_fails_without_persistence (key : Option String) (req : RefineRequest)
    (user : User) (store : Except String Unit) (t : String)
    (hk : pyTruthyKey key = true) (hnb : '\x7b' ∉ t.data) :
    resultStatus (refine_analysis key req user (.ok t) store).1 = some 503 ∧
    (refine_analysis key req user (.ok t) store).2 =
      [Event.oracleCall (build_refine_prompt user req.symptoms req.history)] := by
  unfold refine_analysis
  rw [hk]
  dsimp only
  cases hx : extract_step t with
  | error e => exact ⟨rfl, rfl⟩
  | ok v =>
    cases v with
    | obj pairs => exact absurd (extract_step_obj_mem t pairs hx) hnb
    | null => exact ⟨rfl, rfl⟩
    | bool b => exact ⟨rfl, rfl⟩
    | num lex => exact ⟨rfl, rfl⟩
    | str s => exact ⟨rfl, rfl⟩
    | arr vs => exact ⟨rfl, rfl⟩

/-- C7 (witness): a concrete prose reply fails with 503 and only the
oracle call in the trace. -/
theorem C7_prose_reply_fails_without_persistence_witness :
    pyTruthyKey (some "test-key") = true ∧
    '\x7b' ∉ textProse.data ∧
    (resultStatus (refine_analysis (some "test-key") req0 user0 (.ok textProse) (.ok ())).1 =
       some 503 ∧
     (refine_analysis (some "test-key") req0 user0 (.ok textProse) (.ok ())).2 =
       [Event.oracleCall (build_refine_prompt user0 req0.symptoms req0.history)]) :=
  ⟨rfl, by decide,
   C7_prose_reply_fails_without_persistence (some "test-key") req0 user0 (.ok ()) textProse
     rfl (by decide)⟩

/-- C8: the prompt builders are pure functions of their arguments (two
calls with identical arguments yield the same string, which holds by
construction in this embedding since both are plain functions of their
inputs), and the refine prompt serializes the full history in request
order as alternating question/answer lines: one Q line and one A line
per turn, turns separated by newlines. -/
theorem C8_prompt_builders_pure_ordered (u : User) (s : String) (h : List DialogueTurn)
    (turn : DialogueTurn) (ts : List DialogueTurn) :
    build_initial_prompt u s = build_initial_prompt u s ∧
    build_refine_prompt u s h = build_refine_prompt u s h ∧
    historyStr [] = "" ∧
    historyStr (turn :: ts) =
      "Q: " ++ turn.question ++ "\nA: " ++ turn.answer ++
        (if ts.isEmpty then "" else "\n" ++ historyStr ts) := by
  refine ⟨rfl, rfl, rfl, ?_⟩
  cases ts with
  | nil => simp [historyStr, pyJoin]
  | cons t2 ts2 => simp [historyStr, pyJoin, String.append_assoc]

/-- C9: when the extracted oracle object omits the answer_type key, any
decision returned by advance carries the default answer type yes_no; the
response model makes the field always present. -/
theorem C9_answer_type_default (key : Option String) (req : RefineRequest) (user : User)
    (t : String) (store : Except String Unit) (pairs : List (String × JsonValue))
    (resp : RefineResponse)
    (hx : extract_step t = .ok (JsonValue.obj pairs))
    (hat : dictGet pairs "answer_type" = none)
    (hfst : (refine_analysis key req user (.ok t) store).1 = .ok resp) :
    resp.answer_type = "yes_no" := by
  have hmk := refine_fst_ok_inversion key req user t store resp pairs hx hfst
  obtain ⟨_, h2, _, _⟩ := mkRefineResponse_fields pairs resp hmk
  rw [parseStrFieldD_of_none pairs "answer_type" "yes_no" hat] at h2
  injection h2 with h3
  exact h3.symm

/-- C9 (witness): a concrete final-recommendation reply without
answer_type is returned with answer_type defaulted to yes_no. -/
theorem C9_answer_type_default_witness :
    extract_step textNoAT = .ok (JsonValue.obj
      [("final_recommendation", JsonValue.str "Consultez un medecin."),
       ("severity_level", JsonValue.str "Modere")]) ∧
    dictGet
      [("final_recommendation", JsonValue.str "Consultez un medecin."),
       ("severity_level", JsonValue.str "Modere")] "answer_type" = none ∧
    (refine_analysis (some "test-key") req0 user0 (.ok textNoAT) (.ok ())).1 =
      .ok ⟨none, "yes_no", some "Consultez un medecin.", some "Modere"⟩ ∧
    (⟨none, "yes_no", some "Consultez un medecin.", some "Modere"⟩ : RefineResponse).answer_type =
      "yes_no" :=
  ⟨rfl, rfl, rfl,
   C9_answer_type_default (some "test-key") req0 user0 textNoAT (.ok ())
     [("final_recommendation", JsonValue.str "Consultez un medecin."),
      ("severity_level", JsonValue.str "Modere")]
     ⟨none, "yes_no", some "Consultez un medecin.", some "Modere"⟩ rfl rfl rfl⟩

/-- C10: persistence in advance is keyed on truthiness, not presence: when
the extracted object maps final_recommendation to the empty string, no
consultation record is handed to the session (the only event is the
oracle call), while the returned decision still carries the empty
final_recommendation value. -/
theorem C10_empty_final_recommendation_no_save (key : Option String) (req : RefineRequest)
    (user : User) (t : String) (store : Except String Unit)
    (pairs : List (String × JsonValue)) (resp : RefineResponse)
    (hk : pyTruthyKey key = true)
    (hx : extract_step t = .ok (JsonValue.obj pairs))
    (hfr : dictGet pairs "final_recommendation" = some (JsonValue.str ""))
    (hfst : (refine_analysis key req user (.ok t) store).1 = .ok resp) :
    (refine_analysis key req user (.ok t) store).2 =
      [Event.oracleCall (build_refine_prompt user req.symptoms req.history)] ∧
    resp.final_recommendation = some "" := by
  have hft : jsonTruthy (dictGet pairs "final_recommendation") = false := by
    rw [hfr]; rfl
  constructor
  · unfold refine_analysis
    rw [hk, if_pos rfl]
    dsimp only
    rw [hx]
    dsimp only
    rw [if_neg (show ¬jsonTruthy (dictGet pairs "final_recommendation") = true from by
      rw [hft]; exact Bool.false_ne_true)]
    cases hmk : mkRefineResponse pairs with
    | error e => rfl
    | ok r2 => rfl
  · have hmk := refine_fst_ok_inversion key req user t store resp pairs hx hfst
    obtain ⟨_, _, h3, _⟩ := mkRefineResponse_fields pairs resp hmk
    rw [parseOptStrField_of_str pairs "final_recommendation" "" hfr] at h3
    injection h3 with h4
    exact h4.symm

/-- C10 (witness): a concrete reply with an empty final recommendation:
nothing is saved and the decision carries the empty string. -/
theorem C10_empty_final_recommendation_no_save_witness :
    pyTruthyKey (some "test-key") = true ∧
    extract_step textEmptyFR = .ok (JsonValue.obj
      [("next_question", JsonValue.str "q"), ("final_recommendation", JsonValue.str "")]) ∧
    dictGet [("next_question", JsonValue.str "q"), ("final_recommendation", JsonValue.str "")]
      "final_recommendation" = some (JsonValue.str "") ∧
    (refine_analysis (some "test-key") req0 user0 (.ok textEmptyFR) (.ok ())).1 =
      .ok ⟨some "q", "yes_no", some "", none⟩ ∧
    ((refine_analysis (some "test-key") req0 user0 (.ok textEmptyFR) (.ok ())).2 =
       [Event.oracleCall (build_refine_prompt user0 req0.symptoms req0.history)] ∧
     (⟨some "q", "yes_no", some "", none⟩ : RefineResponse).final_recommendation = some "") :=
  ⟨rfl, rfl, rfl, rfl,
   C10_empty_final_recommendation_no_save (some "test-key") req0 user0 textEmptyFR (.ok ())
     [("next_question", JsonValue.str "q"), ("final_recommendation", JsonValue.str "")]
     ⟨some "q", "yes_no", some "", none⟩ rfl rfl rfl rfl⟩

end Caducee
